import Mathlib

/-!
Verification of the QA-pipeline backend (Azure Functions: orchestrateQA,
generateTests, runTests, jobStatus) against its design specification.

The JavaScript sources are shallowly embedded as pure Lean functions.
External collaborators (blob storage, queues, the model API, the docker
subprocess, the file system) are modelled as oracles: values or functions
supplied as arguments that say how each external call would respond, with
`Except` capturing a call that throws.  Side effects are captured as
explicit event traces (lists of events in program order).  Wall-clock
timestamps (`new Date().toISOString()`), logging, and byte-level file
contents are irrelevant to every claim considered and are not modelled.
-/

deriving instance DecidableEq for Except

namespace QA

/-! ## JavaScript string primitives

Self-contained structural re-implementations of the string operations the
sources use (`String.prototype.includes`, `path.extname`, `toLowerCase`,
`trim`, `replace(s, '')`, `endsWith`), kept structurally recursive so that
concrete instances reduce by `decide`. -/

/-- `isPre pat s`: `pat` is a leading run of `s` (char-list version). -/
def isPre : List Char → List Char → Bool
  | [], _ => true
  | _ :: _, [] => false
  | p :: ps, c :: cs => p = c && isPre ps cs

/-- `containsSub s pat`: JS `s.includes(pat)` on char lists. -/
def containsSub : List Char → List Char → Bool
  | [], pat => pat.isEmpty
  | c :: cs, pat => isPre pat (c :: cs) || containsSub cs pat

/-- JS `s.includes(pat)`. -/
def strContains (s pat : String) : Bool :=
  containsSub s.data pat.data

/-- JS `s.endsWith(pat)`. -/
def strEndsWith (s pat : String) : Bool :=
  isPre pat.data.reverse s.data.reverse

/-- `s` with `pat` stripped from its front, `none` when `pat` is not there. -/
def dropPre : List Char → List Char → Option (List Char)
  | [], s => some s
  | _ :: _, [] => none
  | p :: ps, c :: cs => if p = c then dropPre ps cs else none

/-- JS `s.replace(pat, '')`: remove the first occurrence of `pat`. -/
def replFirst : List Char → List Char → List Char
  | [], _ => []
  | c :: cs, pat =>
    match dropPre pat (c :: cs) with
    | some rest => rest
    | none => c :: replFirst cs pat

/-- JS `s.replace(pat, '')` on strings. -/
def jsStripFirst (s pat : String) : String :=
  String.mk (replFirst s.data pat.data)

/-- Split `s` around the first occurrence of `pat`. -/
def splitFirst : List Char → List Char → Option (List Char × List Char)
  | [], _ => none
  | c :: cs, pat =>
    match dropPre pat (c :: cs) with
    | some rest => some ([], rest)
    | none => (splitFirst cs pat).map (fun p => (c :: p.1, p.2))

/-- JS `s.toLowerCase()` (ASCII range, which is all the sources compare). -/
def lowerStr (s : String) : String :=
  String.mk (s.data.map Char.toLower)

/-- ASCII whitespace, for `trim`. -/
def isWs (c : Char) : Bool :=
  c = ' ' || c = '\t' || c = '\n' || c = '\r'

/-- JS `s.trim()`. -/
def trimStr (s : String) : String :=
  String.mk (((s.data.dropWhile isWs).reverse.dropWhile isWs).reverse)

/-- Node's `path.extname(name)`: the suffix from the last `.`, empty when
there is no dot or the only dot is the leading character. -/
def extname (s : String) : String :=
  let rev := s.data.reverse
  let afterDot := rev.takeWhile (fun c => c ≠ '.')
  if afterDot.length = rev.length then ""
  else if afterDot.length + 1 = rev.length then ""
  else String.mk ('.' :: afterDot.reverse)

/-! ## Test Executor: `collectTestResults` (src/backend/api/runTests/index.js 54-131)

A results directory is modelled as a first-child/next-sibling tree: a
`.file`/`.dir` node carries the rest of its directory listing in `readdir`
order.  A `.json` report's parsed `stats` member is carried as
`Option Stats` (`none` = the parsed object has no `stats`); the modelled
inputs are directories whose `.json` files parse, since a `JSON.parse`
throw aborts collection through the catch at line 126 and no claim
concerns that path. -/

/-- The `stats` object of a structured JSON report; `none` models an absent
member (JS `undefined`). -/
structure Stats where
  total : Option Nat := none
  passed : Option Nat := none
  failed : Option Nat := none
  skipped : Option Nat := none
  duration : Option Nat := none
deriving Repr, DecidableEq

/-- The summary extracted from a report (`results.summary`, lines 115-121). -/
structure TestSummary where
  total : Nat
  passed : Nat
  failed : Nat
  skipped : Nat
  duration : Nat
deriving Repr, DecidableEq

/-- A results directory listing (first-child/next-sibling encoding). -/
inductive FsTree where
  | nil : FsTree
  | file (name content : String) (stats : Option Stats) (rest : FsTree) : FsTree
  | dir (name : String) (entries : FsTree) (rest : FsTree) : FsTree
deriving Repr, DecidableEq

/-- A collected screenshot or log ({name, content}; paths/sizes dropped). -/
structure CollectedFile where
  name : String
  content : String
deriving Repr, DecidableEq

/-- A collected report ({name, type, content, parsed stats}). -/
structure CollectedReport where
  name : String
  typ : String
  content : String
  stats : Option Stats
deriving Repr, DecidableEq

/-- The accumulator object `results` of `collectTestResults` (lines 55-61). -/
structure CollectedResults where
  screenshots : List CollectedFile := []
  logs : List CollectedFile := []
  reports : List CollectedReport := []
  status : String := "unknown"
  summary : Option TestSummary := none
deriving Repr, DecidableEq

/-- Status extracted from a JSON report's stats (lines 113-114):
`failed > 0 ? 'failed' : passed > 0 ? 'passed' : 'unknown'`, where a
missing count compares as JS `undefined > 0 = false`. -/
def statusOfStats (st : Stats) : String :=
  if st.failed.getD 0 > 0 then "failed"
  else if st.passed.getD 0 > 0 then "passed"
  else "unknown"

/-- Summary extracted from a JSON report's stats (lines 115-121, `|| 0`). -/
def summaryOfStats (st : Stats) : TestSummary :=
  { total := st.total.getD 0
    passed := st.passed.getD 0
    failed := st.failed.getD 0
    skipped := st.skipped.getD 0
    duration := st.duration.getD 0 }

/-- One loop iteration of `collectTestResults` on a plain file
(lines 75-124): classify by extension/name, append to the matching
collection, and for a `.json` report with `stats` overwrite
`status`/`summary`. -/
def collectFileStep (acc : CollectedResults) (nm content : String)
    (stats : Option Stats) : CollectedResults :=
  let ext := lowerStr (extname nm)
  let fileName := lowerStr nm
  if ext = ".png" ∨ ext = ".jpg" ∨ ext = ".jpeg" ∨
      strContains fileName "screenshot" = true then
    { acc with screenshots := acc.screenshots ++ [⟨nm, content⟩] }
  else if ext = ".log" ∨ ext = ".txt" ∨ strContains fileName "log" = true then
    { acc with logs := acc.logs ++ [⟨nm, content⟩] }
  else if ext = ".json" ∨ ext = ".html" then
    let typ := if ext = ".json" then "json" else "html"
    let acc1 := { acc with reports := acc.reports ++ [⟨nm, typ, content, stats⟩] }
    if ext = ".json" then
      match stats with
      | some st =>
        { acc1 with status := statusOfStats st, summary := some (summaryOfStats st) }
      | none => acc1
    else acc1
  else acc

/-- The loop of `collectTestResults` (lines 66-125).  A subdirectory is
collected recursively with a fresh accumulator and only its three evidence
lists are merged back (lines 69-74): the recursive call's `status` and
`summary` are discarded. -/
def collectLoop (acc : CollectedResults) : FsTree → CollectedResults
  | .nil => acc
  | .file nm content stats rest => collectLoop (collectFileStep acc nm content stats) rest
  | .dir _ sub rest =>
    let s := collectLoop {} sub
    collectLoop
      { acc with
        screenshots := acc.screenshots ++ s.screenshots
        logs := acc.logs ++ s.logs
        reports := acc.reports ++ s.reports } rest

/-- `collectTestResults(resultsPath)` (lines 54-131). -/
def collectTestResults (t : FsTree) : CollectedResults :=
  collectLoop {} t

/-- Final status derivation of the executor (lines 338-341): the exit-code
fallback applies exactly when the collected status is still `'unknown'`. -/
def deriveFinalStatus (collected : CollectedResults) (exitCode : Int) : String :=
  if collected.status = "unknown" then
    (if exitCode = 0 then "passed" else "failed")
  else collected.status

/-- The `stats` a directory entry contributes to `status`/`summary`: only a
top-level plain file that falls through to the report branch with extension
`.json` and a present `stats` member does (mirrors the classification
chain of `collectFileStep`). -/
def reportJsonStats (nm : String) (stats : Option Stats) : Option Stats :=
  let ext := lowerStr (extname nm)
  let fileName := lowerStr nm
  if ext = ".png" ∨ ext = ".jpg" ∨ ext = ".jpeg" ∨
      strContains fileName "screenshot" = true then none
  else if ext = ".log" ∨ ext = ".txt" ∨ strContains fileName "log" = true then none
  else if ext = ".json" ∨ ext = ".html" then
    (if ext = ".json" then stats else none)
  else none

/-- The `stats` of the last top-level JSON report of a listing — the one
whose extraction survives the collection loop. -/
def lastTopLevelStats : FsTree → Option Stats
  | .nil => none
  | .file nm _ stats rest =>
    (match lastTopLevelStats rest with
     | some s => some s
     | none => reportJsonStats nm stats)
  | .dir _ _ rest => lastTopLevelStats rest

theorem collectFileStep_status (acc : CollectedResults) (nm content : String)
    (stats : Option Stats) :
    (collectFileStep acc nm content stats).status =
      match reportJsonStats nm stats with
      | some s => statusOfStats s
      | none => acc.status := by
  unfold collectFileStep reportJsonStats
  dsimp only
  split_ifs <;> try rfl
  all_goals cases stats <;> rfl

theorem collectFileStep_summary (acc : CollectedResults) (nm content : String)
    (stats : Option Stats) :
    (collectFileStep acc nm content stats).summary =
      match reportJsonStats nm stats with
      | some s => some (summaryOfStats s)
      | none => acc.summary := by
  unfold collectFileStep reportJsonStats
  dsimp only
  split_ifs <;> try rfl
  all_goals cases stats <;> rfl

theorem collectLoop_status (t : FsTree) :
    ∀ acc : CollectedResults,
      (collectLoop acc t).status =
        match lastTopLevelStats t with
        | some s => statusOfStats s
        | none => acc.status := by
  induction t with
  | nil => intro acc; rfl
  | file nm content stats rest ih =>
    intro acc
    show (collectLoop (collectFileStep acc nm content stats) rest).status = _
    rw [ih]
    rcases h : lastTopLevelStats rest with _ | s
    · simp only [lastTopLevelStats, h, collectFileStep_status]
    · simp only [lastTopLevelStats, h]
  | dir nm sub rest ihSub ihRest =>
    intro acc
    show (collectLoop _ rest).status = _
    rw [ihRest]
    rcases h : lastTopLevelStats rest with _ | s <;>
      simp only [lastTopLevelStats, h]

theorem collectLoop_summary (t : FsTree) :
    ∀ acc : CollectedResults,
      (collectLoop acc t).summary =
        match lastTopLevelStats t with
        | some s => some (summaryOfStats s)
        | none => acc.summary := by
  induction t with
  | nil => intro acc; rfl
  | file nm content stats rest ih =>
    intro acc
    show (collectLoop (collectFileStep acc nm content stats) rest).summary = _
    rw [ih]
    rcases h : lastTopLevelStats rest with _ | s
    · simp only [lastTopLevelStats, h, collectFileStep_summary]
    · simp only [lastTopLevelStats, h]
  | dir nm sub rest ihSub ihRest =>
    intro acc
    show (collectLoop _ rest).summary = _
    rw [ihRest]
    rcases h : lastTopLevelStats rest with _ | s <;>
      simp only [lastTopLevelStats, h]

/-- C1 (counterexample): a results directory holding one structured JSON
report whose `stats` has `failed = 0` and `passed = 0` (all tests skipped)
yields an explicit extracted summary, so the claim requires Status
`'unknown'`; but the code's exit-code fallback fires on the report-derived
`'unknown'` status even though a structured summary exists, and with exit
code 1 the final Status is `'failed'`. -/
theorem c1_counterexample :
    (collectTestResults (.file "results.json" ""
        (some { total := some 2, passed := some 0, failed := some 0,
                skipped := some 2 }) .nil)).summary =
      some { total := 2, passed := 0, failed := 0, skipped := 2, duration := 0 } ∧
    (collectTestResults (.file "results.json" ""
        (some { total := some 2, passed := some 0, failed := some 0,
                skipped := some 2 }) .nil)).status = "unknown" ∧
    deriveFinalStatus
      (collectTestResults (.file "results.json" ""
        (some { total := some 2, passed := some 0, failed := some 0,
                skipped := some 2 }) .nil)) 1 = "failed" := by
  refine ⟨by decide, by decide, by decide⟩

/-- C1 (amended): the Executor's Status comes from the last top-level
structured JSON report of the results directory (reports inside
subdirectories are harvested as evidence but their status extraction is
discarded): `'failed'` when its failed-count > 0, else `'passed'` when its
passed-count > 0, else `'unknown'`; and the exit-code fallback
(0 → `'passed'`, nonzero → `'failed'`) applies whenever that derived status
is `'unknown'` — both when no structured summary exists and when one exists
with zero failed and zero passed counts. -/
theorem c1_status_derivation_amended (t : FsTree) (exitCode : Int) :
    deriveFinalStatus (collectTestResults t) exitCode =
      (match lastTopLevelStats t with
       | some s =>
         if statusOfStats s = "unknown" then
           (if exitCode = 0 then "passed" else "failed")
         else statusOfStats s
       | none => (if exitCode = 0 then "passed" else "failed")) := by
  unfold deriveFinalStatus collectTestResults
  rw [collectLoop_status]
  rcases lastTopLevelStats t with _ | s
  · simp
  · rfl

/-! ## Test Executor: `uploadTestResults` (src/backend/api/runTests/index.js 140-252)

Blob storage is an oracle `up : String → Except String String` mapping a
blob name to the uploaded blob's URL (`result.url`), or to the thrown
error.  Every upload is `await`ed in program order; the trace records a
`.start` event when an upload is issued and a `.done` event when it is
acknowledged.  Container selection and the `executedAt` timestamp are not
modelled. -/

/-- Upload trace events. -/
inductive UpEvent where
  | start (blobName : String) : UpEvent
  | done (blobName : String) (url : String) : UpEvent
deriving Repr, DecidableEq

/-- An entry of `uploadResults.(screenshots|logs|reports)` (`type` only for
reports). -/
structure UploadedRef where
  name : String
  url : String
  blobName : String
  typ : Option String := none
deriving Repr, DecidableEq

/-- An evidence reference as embedded in documents and status responses;
`size`/`lastModified`/`typ` are carried only where the code adds them. -/
structure EvidenceItem where
  name : String
  url : String
  typ : Option String := none
  size : Option Nat := none
  lastModified : Option String := none
deriving Repr, DecidableEq

/-- The RunSummary document `{testId}/summary.json` (built at lines 222-230
of runTests/index.js and parsed back by jobStatus).  A field is `none`
when the JSON member is absent or null (JS falsy): note the document the
Executor writes has no `workItemId` member. -/
structure SummaryDoc where
  testId : Option String := none
  workItemId : Option String := none
  status : Option String := none
  summary : Option TestSummary := none
  screenshots : Option (List EvidenceItem) := none
  logs : Option (List EvidenceItem) := none
  reports : Option (List EvidenceItem) := none
  summaryBlobUrl : Option String := none
deriving Repr, DecidableEq

/-- The URL a (successful) upload returned. -/
def okUrl : Except String String → String
  | .ok u => u
  | .error _ => ""

/-- `true` exactly when an external call did not throw. -/
def isOkE {ε α : Type} : Except ε α → Bool
  | .ok _ => true
  | .error _ => false

/-- One evidence-upload loop of `uploadTestResults` (the three loops at
lines 150-219 share this shape): for each item in order, compute its blob
name, upload it — a throw aborts the loop and propagates — and record
`{name, url, blobName(, type)}`. -/
def uploadLoop {α : Type} (up : String → Except String String)
    (blobNameOf nameOf : α → String) (typOf : α → Option String) :
    List α → Except String (List UploadedRef) × List UpEvent
  | [] => (.ok [], [])
  | item :: rest =>
    let bn := blobNameOf item
    match up bn with
    | .error e => (.error e, [.start bn])
    | .ok url =>
      let (r, evs) := uploadLoop up blobNameOf nameOf typOf rest
      (r.map (fun l => ⟨nameOf item, url, bn, typOf item⟩ :: l),
       .start bn :: .done bn url :: evs)

/-- `{testId}/screenshots/{name}` (line 151). -/
def scrBlobName (testId : String) (f : CollectedFile) : String :=
  testId ++ "/screenshots/" ++ f.name

/-- `{testId}/logs/{name}` (line 173). -/
def logBlobName (testId : String) (f : CollectedFile) : String :=
  testId ++ "/logs/" ++ f.name

/-- `{testId}/reports/{name}` (line 195). -/
def repBlobName (testId : String) (r : CollectedReport) : String :=
  testId ++ "/reports/" ++ r.name

/-- The result object of `uploadTestResults` (lines 141-146). -/
structure UploadResults where
  screenshots : List UploadedRef
  logs : List UploadedRef
  reports : List UploadedRef
  summaryBlobUrl : Option String
deriving Repr, DecidableEq

/-- `uploadTestResults(testId, testResults, containerName)`
(lines 140-252): screenshots, then logs, then reports, each awaited in
order; only after all of them succeed is the RunSummary document built
from the recorded upload results and uploaded as `{testId}/summary.json`.
Any throw is re-thrown wrapped (line 250).  The built RunSummary document
is returned alongside the JS result so theorems can speak about the
written document. -/
def uploadTestResults (up : String → Except String String) (testId : String)
    (testResults : CollectedResults) :
    Except String (UploadResults × SummaryDoc) × List UpEvent :=
  match uploadLoop up (scrBlobName testId) (fun f => f.name) (fun _ => none)
      testResults.screenshots with
  | (.error e, evs) => (.error ("Failed to upload test results: " ++ e), evs)
  | (.ok scr, evs1) =>
    match uploadLoop up (logBlobName testId) (fun f => f.name) (fun _ => none)
        testResults.logs with
    | (.error e, evs) => (.error ("Failed to upload test results: " ++ e), evs1 ++ evs)
    | (.ok lg, evs2) =>
      match uploadLoop up (repBlobName testId) (fun r => r.name)
          (fun r => some r.typ) testResults.reports with
      | (.error e, evs) =>
        (.error ("Failed to upload test results: " ++ e), evs1 ++ evs2 ++ evs)
      | (.ok rp, evs3) =>
        let doc : SummaryDoc :=
          { testId := some testId
            status := some testResults.status
            summary := testResults.summary
            screenshots := some (scr.map fun s => { name := s.name, url := s.url })
            logs := some (lg.map fun l => { name := l.name, url := l.url })
            reports := some (rp.map fun r =>
              { name := r.name, url := r.url, typ := r.typ }) }
        let sbn := testId ++ "/summary.json"
        match up sbn with
        | .error e =>
          (.error ("Failed to upload test results: " ++ e),
           evs1 ++ evs2 ++ evs3 ++ [.start sbn])
        | .ok surl =>
          (.ok ({ screenshots := scr, logs := lg, reports := rp,
                  summaryBlobUrl := some surl }, doc),
           evs1 ++ evs2 ++ evs3 ++ [.start sbn, .done sbn surl])

theorem uploadLoop_eq {α : Type} (up : String → Except String String)
    (blobNameOf nameOf : α → String) (typOf : α → Option String)
    (items : List α) (h : ∀ it ∈ items, isOkE (up (blobNameOf it)) = true) :
    uploadLoop up blobNameOf nameOf typOf items =
      (.ok (items.map fun it =>
        ⟨nameOf it, okUrl (up (blobNameOf it)), blobNameOf it, typOf it⟩),
       items.flatMap fun it =>
        [.start (blobNameOf it),
         .done (blobNameOf it) (okUrl (up (blobNameOf it)))]) := by
  induction items with
  | nil => rfl
  | cons item rest ih =>
    have hi := h item (by simp)
    rcases hup : up (blobNameOf item) with e | url
    · rw [hup] at hi; simp [isOkE] at hi
    · have ihr := ih (fun it hit => h it (by simp [hit]))
      simp only [uploadLoop, hup, ihr, List.map_cons, List.flatMap_cons, okUrl]
      rfl

theorem uploadLoop_ok {α : Type} (up : String → Except String String)
    (blobNameOf nameOf : α → String) (typOf : α → Option String) :
    ∀ (items : List α) (l : List UploadedRef) (evs : List UpEvent),
      uploadLoop up blobNameOf nameOf typOf items = (.ok l, evs) →
      (∀ it ∈ items, isOkE (up (blobNameOf it)) = true) ∧
      l = (items.map fun it =>
            ⟨nameOf it, okUrl (up (blobNameOf it)), blobNameOf it, typOf it⟩) ∧
      evs = (items.flatMap fun it =>
            [.start (blobNameOf it),
             .done (blobNameOf it) (okUrl (up (blobNameOf it)))]) := by
  intro items
  induction items with
  | nil =>
    intro l evs h
    have h1 := congrArg Prod.fst h
    have h2 := congrArg Prod.snd h
    simp only [uploadLoop] at h1 h2
    exact ⟨by simp, (Except.ok.inj h1).symm, h2.symm⟩
  | cons item rest ih =>
    intro l evs h
    simp only [uploadLoop] at h
    rcases hup : up (blobNameOf item) with e | url <;> rw [hup] at h
    · exact absurd (congrArg Prod.fst h) (by simp)
    · rcases hrest : uploadLoop up blobNameOf nameOf typOf rest with ⟨r, evsr⟩
      rw [hrest] at h
      cases r with
      | error e => exact absurd (congrArg Prod.fst h) (by simp [Except.map])
      | ok lr =>
        have h1 := congrArg Prod.fst h
        have h2 := congrArg Prod.snd h
        simp only [Except.map] at h1 h2
        obtain ⟨hok, hlr, hevr⟩ := ih lr evsr hrest
        refine ⟨?_, ?_, ?_⟩
        · intro it hit
          rcases List.mem_cons.mp hit with hh | hh
          · subst hh; rw [hup]; rfl
          · exact hok it hh
        · rw [← Except.ok.inj h1, hlr]
          simp [hup, okUrl]
        · rw [← h2, hevr]
          simp [hup, okUrl]

theorem uploadTestResults_all_ok (up : String → Except String String)
    (testId : String) (tr : CollectedResults)
    (h : ∀ bn, isOkE (up bn) = true) :
    isOkE (uploadTestResults up testId tr).1 = true := by
  have h1 := uploadLoop_eq up (scrBlobName testId) (fun f => f.name)
    (fun _ => none) tr.screenshots (fun it _ => h _)
  have h2 := uploadLoop_eq up (logBlobName testId) (fun f => f.name)
    (fun _ => none) tr.logs (fun it _ => h _)
  have h3 := uploadLoop_eq up (repBlobName testId) (fun r => r.name)
    (fun r => some r.typ) tr.reports (fun it _ => h _)
  have hs := h (testId ++ "/summary.json")
  rcases hsu : up (testId ++ "/summary.json") with e | surl
  · rw [hsu] at hs; simp [isOkE] at hs
  · simp only [uploadTestResults, h1, h2, h3, hsu]
    rfl

/-- C3: in every Executor run that uploads its results (the
`uploadTestResults` call returns successfully, which is the only path on
which the RunSummary `{testId}/summary.json` is written), the RunSummary
upload events are the final two events of the trace — every harvested
screenshot, log and report upload completes inside the leading event block,
before the RunSummary upload starts — and the written RunSummary document
lists each uploaded item under its name with the resolvable URL its own
upload returned. -/
theorem c3_summary_written_last (up : String → Except String String)
    (testId : String) (tr : CollectedResults) (res : UploadResults)
    (doc : SummaryDoc) (evs : List UpEvent)
    (h : uploadTestResults up testId tr = (.ok (res, doc), evs)) :
    ∃ evEvts surl,
      evs = evEvts ++ [.start (testId ++ "/summary.json"),
                       .done (testId ++ "/summary.json") surl] ∧
      (∀ f ∈ tr.screenshots,
        UpEvent.done (scrBlobName testId f) (okUrl (up (scrBlobName testId f)))
          ∈ evEvts) ∧
      (∀ f ∈ tr.logs,
        UpEvent.done (logBlobName testId f) (okUrl (up (logBlobName testId f)))
          ∈ evEvts) ∧
      (∀ r ∈ tr.reports,
        UpEvent.done (repBlobName testId r) (okUrl (up (repBlobName testId r)))
          ∈ evEvts) ∧
      doc.screenshots = some (tr.screenshots.map fun f =>
        { name := f.name, url := okUrl (up (scrBlobName testId f)) }) ∧
      doc.logs = some (tr.logs.map fun f =>
        { name := f.name, url := okUrl (up (logBlobName testId f)) }) ∧
      doc.reports = some (tr.reports.map fun r =>
        { name := r.name, url := okUrl (up (repBlobName testId r)),
          typ := some r.typ }) ∧
      res.summaryBlobUrl = some surl := by
  rcases h1 : uploadLoop up (scrBlobName testId) (fun f => f.name)
      (fun _ => none) tr.screenshots with ⟨r1, e1⟩
  rcases r1 with e | scr
  · simp only [uploadTestResults, h1] at h
    exact absurd (congrArg Prod.fst h) (by simp)
  · rcases h2 : uploadLoop up (logBlobName testId) (fun f => f.name)
        (fun _ => none) tr.logs with ⟨r2, e2⟩
    rcases r2 with e | lg
    · simp only [uploadTestResults, h1, h2] at h
      exact absurd (congrArg Prod.fst h) (by simp)
    · rcases h3 : uploadLoop up (repBlobName testId) (fun r => r.name)
          (fun r => some r.typ) tr.reports with ⟨r3, e3⟩
      rcases r3 with e | rp
      · simp only [uploadTestResults, h1, h2, h3] at h
        exact absurd (congrArg Prod.fst h) (by simp)
      · rcases hsu : up (testId ++ "/summary.json") with e | surl
        · simp only [uploadTestResults, h1, h2, h3, hsu] at h
          exact absurd (congrArg Prod.fst h) (by simp)
        · simp only [uploadTestResults, h1, h2, h3, hsu] at h
          obtain ⟨_, hscr, hescr⟩ := uploadLoop_ok up _ _ _ tr.screenshots scr e1 h1
          obtain ⟨_, hlg, helg⟩ := uploadLoop_ok up _ _ _ tr.logs lg e2 h2
          obtain ⟨_, hrp, herp⟩ := uploadLoop_ok up _ _ _ tr.reports rp e3 h3
          have hfst := congrArg Prod.fst h
          have hsnd := congrArg Prod.snd h
          simp only at hfst hsnd
          have hpair := Except.ok.inj hfst
          have hres := congrArg Prod.fst hpair
          have hdoc := congrArg Prod.snd hpair
          simp only at hres hdoc
          refine ⟨(e1 ++ e2) ++ e3, surl, ?_, ?_, ?_, ?_, ?_, ?_, ?_, ?_⟩
          · rw [← hsnd]
          · intro f hf
            refine List.mem_append.mpr (.inl (List.mem_append.mpr (.inl ?_)))
            rw [hescr]
            exact List.mem_flatMap.mpr ⟨f, hf, by simp⟩
          · intro f hf
            refine List.mem_append.mpr (.inl (List.mem_append.mpr (.inr ?_)))
            rw [helg]
            exact List.mem_flatMap.mpr ⟨f, hf, by simp⟩
          · intro r hr
            refine List.mem_append.mpr (.inr ?_)
            rw [herp]
            exact List.mem_flatMap.mpr ⟨r, hr, by simp⟩
          · rw [← hdoc]
            simp only [hscr, List.map_map]
            rfl
          · rw [← hdoc]
            simp only [hlg, List.map_map]
            rfl
          · rw [← hdoc]
            simp only [hrp, List.map_map]
            rfl
          · rw [← hres]

/-- Upload oracle for the concrete run exercising `c3_summary_written_last`. -/
def c3up : String → Except String String :=
  fun bn => .ok ("https://blob/" ++ bn)

/-- Concrete collected results: one screenshot, one log, one JSON report. -/
def c3tr : CollectedResults :=
  { screenshots := [⟨"shot.png", "img"⟩]
    logs := [⟨"run.log", "l"⟩]
    reports := [⟨"results.json", "json", "rpt", some {}⟩]
    status := "passed"
    summary := some ⟨1, 1, 0, 0, 5⟩ }

/-- The upload results of that run. -/
def c3res : UploadResults :=
  { screenshots := [⟨"shot.png", "https://blob/t3/screenshots/shot.png",
      "t3/screenshots/shot.png", none⟩]
    logs := [⟨"run.log", "https://blob/t3/logs/run.log", "t3/logs/run.log", none⟩]
    reports := [⟨"results.json", "https://blob/t3/reports/results.json",
      "t3/reports/results.json", some "json"⟩]
    summaryBlobUrl := some "https://blob/t3/summary.json" }

/-- The RunSummary document that run writes. -/
def c3doc : SummaryDoc :=
  { testId := some "t3"
    status := some "passed"
    summary := some ⟨1, 1, 0, 0, 5⟩
    screenshots :=
      some [{ name := "shot.png", url := "https://blob/t3/screenshots/shot.png" }]
    logs := some [{ name := "run.log", url := "https://blob/t3/logs/run.log" }]
    reports :=
      some [{ name := "results.json", url := "https://blob/t3/reports/results.json",
              typ := some "json" }] }

/-- The upload trace of that run. -/
def c3evs : List UpEvent :=
  [.start "t3/screenshots/shot.png",
   .done "t3/screenshots/shot.png" "https://blob/t3/screenshots/shot.png",
   .start "t3/logs/run.log",
   .done "t3/logs/run.log" "https://blob/t3/logs/run.log",
   .start "t3/reports/results.json",
   .done "t3/reports/results.json" "https://blob/t3/reports/results.json",
   .start "t3/summary.json",
   .done "t3/summary.json" "https://blob/t3/summary.json"]

/-- C3 witness: the ordering/contents property at the concrete run. -/
theorem c3_witness :
    ∃ evEvts surl,
      c3evs = evEvts ++ [.start ("t3" ++ "/summary.json"),
                         .done ("t3" ++ "/summary.json") surl] ∧
      (∀ f ∈ c3tr.screenshots,
        UpEvent.done (scrBlobName "t3" f) (okUrl (c3up (scrBlobName "t3" f)))
          ∈ evEvts) ∧
      (∀ f ∈ c3tr.logs,
        UpEvent.done (logBlobName "t3" f) (okUrl (c3up (logBlobName "t3" f)))
          ∈ evEvts) ∧
      (∀ r ∈ c3tr.reports,
        UpEvent.done (repBlobName "t3" r) (okUrl (c3up (repBlobName "t3" r)))
          ∈ evEvts) ∧
      c3doc.screenshots = some (c3tr.screenshots.map fun f =>
        { name := f.name, url := okUrl (c3up (scrBlobName "t3" f)) }) ∧
      c3doc.logs = some (c3tr.logs.map fun f =>
        { name := f.name, url := okUrl (c3up (logBlobName "t3" f)) }) ∧
      c3doc.reports = some (c3tr.reports.map fun r =>
        { name := r.name, url := okUrl (c3up (repBlobName "t3" r)),
          typ := some r.typ }) ∧
      c3res.summaryBlobUrl = some surl :=
  c3_summary_written_last c3up "t3" c3tr c3res c3doc c3evs (by decide)

/-! ## Test Executor: docker helper and queue-consumer entry point
(src/backend/api/generateTests/dockerHelper section `runTestsWithMount`,
lines 591-662, and runTests/index.js `module.exports`, lines 259-410)

`runTestsWithMount` creates a temp directory (outside its try block),
writes the script, creates the results directory and runs the docker
command; every throw inside the try is converted to an exit-code result
via `error.code || 1` — including the wall-clock-timeout kill, whose
`error.code` is null (modelled as `none`; fs errors carrying a non-numeric
string code are likewise modelled as `none`, since the caller only
compares the exit code against 0). -/

/-- Outcome of the `execAsync(dockerCommand, {timeout: 600000})` call:
`finished` resolves (exit code 0), `rejected` throws with `error.code`
(`none` = null/undefined, e.g. the process was killed by the timeout). -/
inductive ExecOutcome where
  | finished (stdout stderr : String) : ExecOutcome
  | rejected (code : Option Int) (stdout stderr : String) : ExecOutcome
deriving Repr, DecidableEq

/-- JS `error.code || 1` (both `null` and `0` are falsy). -/
def jsOrOne : Option Int → Int
  | some c => if c = 0 then 1 else c
  | none => 1

/-- The external calls one `RunTests` invocation makes. -/
structure RunTestsOracle where
  /-- `storageHelper.downloadBlobAsString` for the script blob. -/
  download : Except String String
  /-- `fs.mkdtemp` — outside the helper's try, so a throw propagates. -/
  mkdtemp : Except String String
  /-- `fs.writeFile` of the test script (error carries `error.code`). -/
  writeScript : Except (Option Int) Unit
  /-- `fs.mkdir` of the results directory. -/
  mkdirResults : Except (Option Int) Unit
  /-- The docker subprocess. -/
  exec : ExecOutcome
  /-- What walking the results directory finds after execution. -/
  resultsDir : FsTree
  /-- `storageHelper.uploadBlob` keyed by blob name. -/
  upload : String → Except String String

/-- The result object of `runTestsWithMount` (lines 640-646 / 650-657). -/
structure MountResult where
  exitCode : Int
  stdout : String
  stderr : String
  resultsPath : String
deriving Repr, DecidableEq

/-- `runTestsWithMount(options)` (lines 591-662): a throw inside the try
becomes an exit-code result (`error.code || 1`); only the `fs.mkdtemp`
failure — before the try — propagates to the caller. -/
def runTestsWithMount (o : RunTestsOracle) : Except String MountResult :=
  match o.mkdtemp with
  | .error e => .error e
  | .ok tempDir =>
    let resultsPath := tempDir ++ "/results"
    match o.writeScript with
    | .error code =>
      .ok { exitCode := jsOrOne code, stdout := "", stderr := "",
            resultsPath := resultsPath }
    | .ok _ =>
      match o.mkdirResults with
      | .error code =>
        .ok { exitCode := jsOrOne code, stdout := "", stderr := "",
              resultsPath := resultsPath }
      | .ok _ =>
        match o.exec with
        | .rejected code sout serr =>
          .ok { exitCode := jsOrOne code, stdout := sout, stderr := serr,
                resultsPath := resultsPath }
        | .finished sout serr =>
          .ok { exitCode := 0, stdout := sout, stderr := serr,
                resultsPath := resultsPath }

/-- The queue message of `RunTests` (runTests/index.js header comment). -/
structure RunQueueItem where
  testId : Option String := none
  id : Option String := none
  scriptBlobUrl : Option String := none
  scriptBlobName : Option String := none
  containerName : Option String := none
  workItemId : Option String := none
deriving Repr, DecidableEq

/-- The response object of a successful `RunTests` run (lines 368-380). -/
structure RunTestsResponse where
  testId : String
  workItemId : Option String
  status : String
  summary : Option TestSummary
  exitCode : Int
  screenshots : List UploadedRef
  logs : List UploadedRef
  reports : List UploadedRef
  summaryBlobUrl : Option String
deriving Repr, DecidableEq

/-- Any error thrown inside the try block of the `RunTests` entry point
reaches the catch at line 386, whose first statement reads
`statusQueueName` — a `const` declared inside the try block (line 278) and
hence not in scope in the catch — so the catch itself throws a
ReferenceError and the function rejects instead of returning the error
response built at lines 402-408. -/
def runTestsCrash : Except String RunTestsResponse :=
  .error "ReferenceError: statusQueueName is not defined"

/-- `module.exports` of runTests (lines 259-410).  The job-status-queue
updates (`updateJobStatus`, lines 36-47) swallow their own errors and do
not influence the returned value, so that side channel is not modelled;
`freshId` models `uuidv4()`. -/
def runTestsHandler (o : RunTestsOracle) (queueItem : Option RunQueueItem)
    (freshId : String) : Except String RunTestsResponse :=
  match queueItem with
  | none => runTestsCrash
  | some qi =>
    let testId := ((qi.testId).orElse (fun _ => qi.id)).getD freshId
    match qi.scriptBlobName with
    | none => runTestsCrash
    | some _sbn =>
      match o.download with
      | .error _ => runTestsCrash
      | .ok _script =>
        match runTestsWithMount o with
        | .error _ => runTestsCrash
        | .ok mount =>
          let testResults := collectTestResults o.resultsDir
          let finalStatus := deriveFinalStatus testResults mount.exitCode
          match (uploadTestResults o.upload testId testResults).1 with
          | .error _ => runTestsCrash
          | .ok pair =>
            .ok { testId := testId
                  workItemId := qi.workItemId
                  status := finalStatus
                  summary := testResults.summary
                  exitCode := mount.exitCode
                  screenshots := pair.1.screenshots
                  logs := pair.1.logs
                  reports := pair.1.reports
                  summaryBlobUrl := pair.1.summaryBlobUrl }

/-- Concrete Executor run whose docker subprocess is killed by the
wall-clock timeout (`execAsync` rejects with `error.code = null`), with an
empty results directory and working storage. -/
def c8oracle : RunTestsOracle :=
  { download := .ok "test script"
    mkdtemp := .ok "/tmp/pw"
    writeScript := .ok ()
    mkdirResults := .ok ()
    exec := .rejected none "" "Command failed: docker run (killed after 600000 ms)"
    resultsDir := .nil
    upload := fun bn => .ok ("https://blob/" ++ bn) }

/-- The queue envelope of that run. -/
def c8qi : RunQueueItem :=
  { testId := some "t8", scriptBlobName := some "t8/test.spec.js" }

/-- C8 (counterexample): a run that hits the wall-clock timeout does not
produce Status `'error'` as the claim states: the timeout rejection is
converted to exit code 1 inside `runTestsWithMount`, so the run completes
and reports Status `'failed'`. -/
theorem c8_counterexample :
    runTestsHandler c8oracle (some c8qi) "fresh" =
      .ok { testId := "t8", workItemId := none, status := "failed",
            summary := none, exitCode := 1, screenshots := [], logs := [],
            reports := [], summaryBlobUrl := some "https://blob/t8/summary.json" } ∧
    "failed" ≠ "error" :=
  ⟨by decide, by decide⟩

/-- C8 (amended): an Executor run whose sandboxed subprocess is killed by
the wall-clock timeout still completes with a definitive Status — the
rejection's null `error.code` becomes exit code 1 inside
`runTestsWithMount`, and when the harvested results yield no explicit
report status the exit-code fallback resolves the Status to `'failed'`
(not `'error'`, and never a permanently unset `'unknown'`) — and on this
path the queue-consumer entry point returns a response rather than
throwing.  (Errors that do reach the entry point's catch block crash the
consumer instead, because the catch reads the out-of-scope
`statusQueueName` binding — see `runTestsCrash`.) -/
theorem c8_timeout_failed_amended (o : RunTestsOracle) (qi : RunQueueItem)
    (freshId sbn script tmp sout serr : String)
    (hbn : qi.scriptBlobName = some sbn)
    (hdl : o.download = .ok script)
    (hmk : o.mkdtemp = .ok tmp)
    (hw : o.writeScript = .ok ())
    (hmd : o.mkdirResults = .ok ())
    (hex : o.exec = .rejected none sout serr)
    (hcol : (collectTestResults o.resultsDir).status = "unknown")
    (hup : ∀ bn, isOkE (o.upload bn) = true) :
    isOkE (runTestsHandler o (some qi) freshId) = true ∧
    ∀ resp, runTestsHandler o (some qi) freshId = .ok resp →
      resp.status = "failed" ∧ resp.exitCode = 1 := by
  have hmount : runTestsWithMount o =
      .ok { exitCode := 1, stdout := sout, stderr := serr,
            resultsPath := tmp ++ "/results" } := by
    simp only [runTestsWithMount, hmk, hw, hmd, hex]
    rfl
  have hds : deriveFinalStatus (collectTestResults o.resultsDir) 1 = "failed" := by
    simp [deriveFinalStatus, hcol]
  have hok := uploadTestResults_all_ok o.upload
    (((qi.testId).orElse (fun _ => qi.id)).getD freshId)
    (collectTestResults o.resultsDir) hup
  rcases hu : (uploadTestResults o.upload
      (((qi.testId).orElse (fun _ => qi.id)).getD freshId)
      (collectTestResults o.resultsDir)).1 with e | pair
  · rw [hu] at hok
    simp [isOkE] at hok
  · have hh : runTestsHandler o (some qi) freshId =
        .ok { testId := ((qi.testId).orElse (fun _ => qi.id)).getD freshId
              workItemId := qi.workItemId
              status := "failed"
              summary := (collectTestResults o.resultsDir).summary
              exitCode := 1
              screenshots := pair.1.screenshots
              logs := pair.1.logs
              reports := pair.1.reports
              summaryBlobUrl := pair.1.summaryBlobUrl } := by
      simp only [runTestsHandler, hbn, hdl, hmount, hu, hds]
    refine ⟨by rw [hh]; rfl, ?_⟩
    intro resp hresp
    rw [hh] at hresp
    have := Except.ok.inj hresp
    rw [← this]
    exact ⟨rfl, rfl⟩

/-- C8 witness: the amended theorem at the concrete timed-out run. -/
theorem c8_witness :
    c8oracle.exec = .rejected none ""
      "Command failed: docker run (killed after 600000 ms)" ∧
    (collectTestResults c8oracle.resultsDir).status = "unknown" ∧
    (isOkE (runTestsHandler c8oracle (some c8qi) "fresh") = true ∧
     ∀ resp, runTestsHandler c8oracle (some c8qi) "fresh" = .ok resp →
       resp.status = "failed" ∧ resp.exitCode = 1) :=
  ⟨rfl, rfl,
   c8_timeout_failed_amended c8oracle c8qi "fresh" "t8/test.spec.js"
     "test script" "/tmp/pw" "" "Command failed: docker run (killed after 600000 ms)"
     rfl rfl rfl rfl rfl rfl rfl (fun _ => rfl)⟩

/-! ## Pipeline Orchestrator: `processWorkItem`
(src/backend/api/orchestrateQA/index.js 29-125)

The Generator stage (scenario + script generation, durable script write,
envelope enqueue, best-effort notification) runs inside one try block; any
throw lands in the catch at line 119, which marks the result
`testResults.status = 'error'` with the error message and returns it.
External calls are oracles; the trace records the durable write and the
enqueue with start/done pairs (`done` = the awaited call acknowledged). -/

/-- An exploratory scenario (title/description/focusAreas/riskLevel). -/
structure Scenario where
  title : String := ""
  description : String := ""
  focusAreas : List String := []
  riskLevel : String := ""
deriving Repr, DecidableEq

/-- A work-item snapshot as `processWorkItem` consumes it. -/
structure WorkItem where
  workItemId : String
  title : String
  description : String := ""
  url : String := ""
deriving Repr, DecidableEq

/-- The envelope enqueued on the test-execution queue (lines 83-90). -/
structure ExecEnvelope where
  testId : String
  workItemId : String
  scriptBlobName : String
  containerName : String
  title : String
  url : String
deriving Repr, DecidableEq

/-- Observable effects of one `processWorkItem` run, in program order. -/
inductive PwEvent where
  | uploadStart (blobName : String) : PwEvent
  | uploadDone (blobName : String) (url : String) : PwEvent
  | enqueueStart (envl : ExecEnvelope) : PwEvent
  | enqueueDone (envl : ExecEnvelope) : PwEvent
  | notifyStart : PwEvent
  | notifyDone : PwEvent
deriving Repr, DecidableEq

/-- The external calls one `processWorkItem` invocation makes. -/
structure GenOracle where
  /-- `testGenerator.generateExploratoryScenarios` (line 51). -/
  genScenarios : Except String (List Scenario)
  /-- `testGenerator.generatePlaywrightTestScript` (line 57). -/
  genScript : Except String String
  /-- `storageHelper.uploadBlob` of the script (line 63): the blob URL. -/
  uploadScript : Except String String
  /-- `queueHelper.enqueueMessage` on the execution queue (line 83). -/
  enqueueExec : Except String Unit
  /-- `teamsNotifier.notifyTeams` (line 100). -/
  notifyTeams : Except String Unit
  /-- `process.env.TEAMS_WEBHOOK_URL` (`none` = unset). -/
  teamsWebhookUrl : Option String
  /-- `process.env.STORAGE_CONTAINER_NAME || 'test-scripts'`. -/
  scriptContainerName : String := "test-scripts"

/-- The `result.testResults` object (status plus error detail). -/
structure TestResultsField where
  status : String
  error : Option String := none
deriving Repr, DecidableEq

/-- The per-work-item result object (lines 31-44; the untouched
`testResults.logs`/`testResults.screenshots` placeholders are dropped). -/
structure PWResult where
  workItemId : String
  title : String
  exploratoryScenarios : List Scenario
  automatedTestScripts : List String
  testResults : TestResultsField
  teamsNotifications : List String
  bugCreated : Bool
deriving Repr, DecidableEq

/-- `processWorkItem(workItem, context)` (lines 29-125); `testId` models
the `uuidv4()` minted at line 30. -/
def processWorkItem (o : GenOracle) (wi : WorkItem) (testId : String) :
    PWResult × List PwEvent :=
  let base : PWResult :=
    { workItemId := wi.workItemId, title := wi.title,
      exploratoryScenarios := [], automatedTestScripts := [],
      testResults := { status := "unknown" },
      teamsNotifications := [], bugCreated := false }
  match o.genScenarios with
  | .error e =>
    ({ base with testResults := { status := "error", error := some e } }, [])
  | .ok scens =>
    let r1 := { base with exploratoryScenarios := scens }
    match o.genScript with
    | .error e =>
      ({ r1 with testResults := { status := "error", error := some e } }, [])
    | .ok _script =>
      let scriptBlobName := testId ++ "/test.spec.js"
      match o.uploadScript with
      | .error e =>
        ({ r1 with testResults := { status := "error", error := some e } },
         [.uploadStart scriptBlobName])
      | .ok url =>
        let r2 := { r1 with automatedTestScripts := [url] }
        let envl : ExecEnvelope :=
          { testId := testId, workItemId := wi.workItemId,
            scriptBlobName := scriptBlobName,
            containerName := o.scriptContainerName,
            title := wi.title, url := wi.url }
        match o.enqueueExec with
        | .error e =>
          ({ r2 with testResults := { status := "error", error := some e } },
           [.uploadStart scriptBlobName, .uploadDone scriptBlobName url,
            .enqueueStart envl])
        | .ok _ =>
          match o.teamsWebhookUrl with
          | none =>
            (r2, [.uploadStart scriptBlobName, .uploadDone scriptBlobName url,
                  .enqueueStart envl, .enqueueDone envl])
          | some wh =>
            match o.notifyTeams with
            | .error _ =>
              -- the notification failure is caught and only logged (line 109)
              (r2, [.uploadStart scriptBlobName, .uploadDone scriptBlobName url,
                    .enqueueStart envl, .enqueueDone envl, .notifyStart])
            | .ok _ =>
              ({ r2 with teamsNotifications := [wh] },
               [.uploadStart scriptBlobName, .uploadDone scriptBlobName url,
                .enqueueStart envl, .enqueueDone envl, .notifyStart, .notifyDone])

/-- The script of a run is durably stored at `bn` in a trace: its upload
was acknowledged (and nothing in the pipeline ever deletes it). -/
def scriptStoredAt (tr : List PwEvent) (bn : String) : Prop :=
  ∃ url, PwEvent.uploadDone bn url ∈ tr

/-- C2: in every run of the Generator stage (not only successful ones), if
the Executor envelope enqueue is ever issued, the durable write of the test
script was already acknowledged at a strictly earlier point of the trace:
the `uploadBlob` of `{testId}/test.spec.js` is awaited, and only after it
resolves is `enqueueMessage` called. -/
theorem c2_write_before_enqueue (o : GenOracle) (wi : WorkItem)
    (testId : String) :
    ∀ envl, PwEvent.enqueueStart envl ∈ (processWorkItem o wi testId).2 →
      ∃ i j url,
        (processWorkItem o wi testId).2.get? i =
          some (.uploadDone (testId ++ "/test.spec.js") url) ∧
        (processWorkItem o wi testId).2.get? j = some (.enqueueStart envl) ∧
        i < j := by
  intro envl hmem
  rcases h1 : o.genScenarios with e | scens
  · simp [processWorkItem, h1] at hmem
  · rcases h2 : o.genScript with e | script
    · simp [processWorkItem, h1, h2] at hmem
    · rcases h3 : o.uploadScript with e | url
      · simp [processWorkItem, h1, h2, h3] at hmem
      · rcases h4 : o.enqueueExec with e | u4
        · simp only [processWorkItem, h1, h2, h3, h4] at hmem ⊢
          simp at hmem
          subst hmem
          exact ⟨1, 2, url, rfl, rfl, by omega⟩
        · rcases h5 : o.teamsWebhookUrl with _ | wh
          · simp only [processWorkItem, h1, h2, h3, h4, h5] at hmem ⊢
            simp at hmem
            subst hmem
            exact ⟨1, 2, url, rfl, rfl, by omega⟩
          · rcases h6 : o.notifyTeams with e | u6 <;>
              simp only [processWorkItem, h1, h2, h3, h4, h5, h6] at hmem ⊢ <;>
              simp at hmem <;> subst hmem <;>
              exact ⟨1, 2, url, rfl, rfl, by omega⟩

/-- C2 witness: a fully successful concrete run. -/
theorem c2_witness :
    PwEvent.enqueueStart
        { testId := "run-1", workItemId := "42",
          scriptBlobName := "run-1" ++ "/test.spec.js",
          containerName := "test-scripts", title := "Login form", url := "" }
      ∈ (processWorkItem
          { genScenarios := .ok [{ title := "s1", riskLevel := "high" }],
            genScript := .ok "test obtained",
            uploadScript := .ok "https://blob/run-1/test.spec.js",
            enqueueExec := .ok (), notifyTeams := .ok (),
            teamsWebhookUrl := none }
          { workItemId := "42", title := "Login form" } "run-1").2 ∧
    ∃ i j url,
      (processWorkItem
          { genScenarios := .ok [{ title := "s1", riskLevel := "high" }],
            genScript := .ok "test obtained",
            uploadScript := .ok "https://blob/run-1/test.spec.js",
            enqueueExec := .ok (), notifyTeams := .ok (),
            teamsWebhookUrl := none }
          { workItemId := "42", title := "Login form" } "run-1").2.get? i =
        some (.uploadDone ("run-1" ++ "/test.spec.js") url) ∧
      (processWorkItem
          { genScenarios := .ok [{ title := "s1", riskLevel := "high" }],
            genScript := .ok "test obtained",
            uploadScript := .ok "https://blob/run-1/test.spec.js",
            enqueueExec := .ok (), notifyTeams := .ok (),
            teamsWebhookUrl := none }
          { workItemId := "42", title := "Login form" } "run-1").2.get? j =
        some (.enqueueStart
          { testId := "run-1", workItemId := "42",
            scriptBlobName := "run-1" ++ "/test.spec.js",
            containerName := "test-scripts", title := "Login form", url := "" }) ∧
      i < j :=
  ⟨by decide,
   c2_write_before_enqueue
     { genScenarios := .ok [{ title := "s1", riskLevel := "high" }],
       genScript := .ok "test obtained",
       uploadScript := .ok "https://blob/run-1/test.spec.js",
       enqueueExec := .ok (), notifyTeams := .ok (), teamsWebhookUrl := none }
     { workItemId := "42", title := "Login form" } "run-1"
     { testId := "run-1", workItemId := "42",
       scriptBlobName := "run-1" ++ "/test.spec.js",
       containerName := "test-scripts", title := "Login form", url := "" }
     (by decide)⟩

theorem take_uploadDone_first (bn url : String) (rest : List PwEvent)
    (hbn : ∀ envl, PwEvent.enqueueDone envl ∈ rest → envl.scriptBlobName = bn) :
    ∀ (n : Nat) (envl : ExecEnvelope),
      PwEvent.enqueueDone envl ∈
        ((PwEvent.uploadStart bn :: PwEvent.uploadDone bn url :: rest).take n) →
      scriptStoredAt
        ((PwEvent.uploadStart bn :: PwEvent.uploadDone bn url :: rest).take n)
        envl.scriptBlobName := by
  intro n envl h
  match n with
  | 0 => simp at h
  | 1 => simp [List.take] at h
  | (k + 2) =>
    simp only [List.take_succ_cons] at h ⊢
    have hmem : PwEvent.enqueueDone envl ∈ rest.take k := by
      simp at h
      exact h
    have := hbn envl (List.take_subset k rest hmem)
    rw [this]
    exact ⟨url, by simp⟩

/-- C4: every `processWorkItem` run falls into exactly one of two
outcomes — either the result carries `testResults.status = 'error'` with
an error detail and no Executor envelope was ever enqueued, or the status
is not `'error'`, an envelope was enqueued and the run's script-blob write
was acknowledged — and at every reachable point of the trace (every
prefix), an enqueued envelope's script blob was already durably stored. -/
theorem c4_generate_dichotomy (o : GenOracle) (wi : WorkItem)
    (testId : String) :
    (((processWorkItem o wi testId).1.testResults.status = "error" ∧
      ((processWorkItem o wi testId).1.testResults.error).isSome = true ∧
      ∀ envl, PwEvent.enqueueDone envl ∉ (processWorkItem o wi testId).2) ∨
     ((processWorkItem o wi testId).1.testResults.status ≠ "error" ∧
      (∃ envl, PwEvent.enqueueDone envl ∈ (processWorkItem o wi testId).2) ∧
      scriptStoredAt (processWorkItem o wi testId).2
        (testId ++ "/test.spec.js"))) ∧
    (∀ (n : Nat) (envl : ExecEnvelope),
      PwEvent.enqueueDone envl ∈ ((processWorkItem o wi testId).2.take n) →
      scriptStoredAt ((processWorkItem o wi testId).2.take n)
        envl.scriptBlobName) := by
  rcases h1 : o.genScenarios with e | scens
  · refine ⟨.inl ⟨?_, ?_, ?_⟩, ?_⟩ <;>
      simp [processWorkItem, h1, scriptStoredAt]
  · rcases h2 : o.genScript with e | script
    · refine ⟨.inl ⟨?_, ?_, ?_⟩, ?_⟩ <;>
        simp [processWorkItem, h1, h2, scriptStoredAt]
    · rcases h3 : o.uploadScript with e | url
      · refine ⟨.inl ⟨?_, ?_, ?_⟩, ?_⟩ <;>
          simp only [processWorkItem, h1, h2, h3] <;> try rfl
        · simp
        · intro n envl hm
          exact absurd (List.take_subset n _ hm) (by simp)
      · rcases h4 : o.enqueueExec with e | u4
        · refine ⟨.inl ⟨?_, ?_, ?_⟩, ?_⟩ <;>
            simp only [processWorkItem, h1, h2, h3, h4] <;> try rfl
          · simp
          · intro n envl hm
            have := List.take_subset n _ hm
            simp at this
        · have hstep : ∀ tail : List PwEvent,
              (∀ envl, PwEvent.enqueueDone envl ∈ tail →
                envl.scriptBlobName = testId ++ "/test.spec.js") →
              ∀ (n : Nat) (envl : ExecEnvelope),
                PwEvent.enqueueDone envl ∈
                  ((PwEvent.uploadStart (testId ++ "/test.spec.js") ::
                    PwEvent.uploadDone (testId ++ "/test.spec.js") url ::
                    tail).take n) →
                scriptStoredAt
                  ((PwEvent.uploadStart (testId ++ "/test.spec.js") ::
                    PwEvent.uploadDone (testId ++ "/test.spec.js") url ::
                    tail).take n) envl.scriptBlobName :=
            fun tail hb => take_uploadDone_first _ url tail hb
          rcases h5 : o.teamsWebhookUrl with _ | wh
          · refine ⟨.inr ⟨?_, ?_, ?_⟩, ?_⟩
            · simp [processWorkItem, h1, h2, h3, h4, h5]
            · refine ⟨{ testId := testId, workItemId := wi.workItemId,
                        scriptBlobName := testId ++ "/test.spec.js",
                        containerName := o.scriptContainerName,
                        title := wi.title, url := wi.url }, ?_⟩
              simp [processWorkItem, h1, h2, h3, h4, h5]
            · simp only [scriptStoredAt, processWorkItem, h1, h2, h3, h4, h5]
              exact ⟨url, by simp⟩
            · simp only [processWorkItem, h1, h2, h3, h4, h5]
              exact hstep _ (by intro envl hm; simp at hm; rw [hm])
          · rcases h6 : o.notifyTeams with e | u6
            · refine ⟨.inr ⟨?_, ?_, ?_⟩, ?_⟩
              · simp [processWorkItem, h1, h2, h3, h4, h5, h6]
              · refine ⟨{ testId := testId, workItemId := wi.workItemId,
                          scriptBlobName := testId ++ "/test.spec.js",
                          containerName := o.scriptContainerName,
                          title := wi.title, url := wi.url }, ?_⟩
                simp [processWorkItem, h1, h2, h3, h4, h5, h6]
              · simp only [scriptStoredAt, processWorkItem, h1, h2, h3, h4, h5, h6]
                exact ⟨url, by simp⟩
              · simp only [processWorkItem, h1, h2, h3, h4, h5, h6]
                exact hstep _ (by intro envl hm; simp at hm; rw [hm])
            · refine ⟨.inr ⟨?_, ?_, ?_⟩, ?_⟩
              · simp [processWorkItem, h1, h2, h3, h4, h5, h6]
              · refine ⟨{ testId := testId, workItemId := wi.workItemId,
                          scriptBlobName := testId ++ "/test.spec.js",
                          containerName := o.scriptContainerName,
                          title := wi.title, url := wi.url }, ?_⟩
                simp [processWorkItem, h1, h2, h3, h4, h5, h6]
              · simp only [scriptStoredAt, processWorkItem, h1, h2, h3, h4, h5, h6]
                exact ⟨url, by simp⟩
              · simp only [processWorkItem, h1, h2, h3, h4, h5, h6]
                exact hstep _ (by intro envl hm; simp at hm; rw [hm])

/-! ## Scenario/Script Generator: the GenerateTests entry point
(src/backend/api/generateTests/index.js section of
generateTests/promptTemplates.js: `generateTestsWithAI` lines 200-256,
`generateTestsSeparately` lines 263-323, `module.exports` lines 330-425)

The three model-API completions are oracles.  `combined` is the outcome of
`generateTestsWithAI` — a throw anywhere inside it (the API call, the JSON
parse with its markdown-extraction fallback) is its `.error`.  In
`generateTestsSeparately`, the script-only completion comes first; its
throw propagates, and only when it resolves is the scenarios-only
completion issued (whose parse failures are mostly swallowed into `[]`, so
its `.error` is a throwing call). -/

/-- Which model calls a GenerateTests invocation issued, in order. -/
inductive GenCallEvent where
  | combinedCall : GenCallEvent
  | scriptCall : GenCallEvent
  | scenariosCall : GenCallEvent
deriving Repr, DecidableEq

/-- Oracles of one GenerateTests invocation. -/
structure AiOracle where
  /-- Outcome of `generateTestsWithAI` (testScript, scenarios). -/
  combined : Except String (String × List Scenario)
  /-- The script-only completion's text (line 269). -/
  scriptOnly : Except String String
  /-- The scenarios-only completion, parsed (lines 289-317). -/
  scenariosOnly : Except String (List Scenario)
  /-- `storageHelper.uploadBlob`, keyed by the uploaded script text:
  the blob URL, or a throw. -/
  upload : String → Except String String

/-- Strip a leading `javascript|typescript|js|ts` language tag (the
alternation of the regex at line 368, longest first). -/
def dropLangTag (s : List Char) : List Char :=
  match dropPre "javascript".data s with
  | some rest => rest
  | none =>
    match dropPre "typescript".data s with
    | some rest => rest
    | none =>
      match dropPre "ts".data s with
      | some rest => rest
      | none =>
        match dropPre "js".data s with
        | some rest => rest
        | none => s

/-- The markdown cleanup at lines 367-371: when the script contains a
fenced code block, replace it by the first block's inner text (language
tag dropped, trimmed); otherwise leave it unchanged. -/
def stripCodeBlock (s : String) : String :=
  match splitFirst s.data "```".data with
  | none => s
  | some (_, rest) =>
    match splitFirst rest "```".data with
    | none => s
    | some (inner, _) => trimStr (String.mk (dropLangTag inner))

/-- `generateTestsSeparately(workItem)` (lines 263-323): script-only
completion first (trimmed), then scenarios-only; a throw propagates. -/
def generateTestsSeparately (o : AiOracle) :
    Except String (String × List Scenario) × List GenCallEvent :=
  match o.scriptOnly with
  | .error e => (.error e, [.scriptCall])
  | .ok script =>
    match o.scenariosOnly with
    | .error e => (.error e, [.scriptCall, .scenariosCall])
    | .ok scens => (.ok (trimStr script, scens), [.scriptCall, .scenariosCall])

/-- The queue message of GenerateTests (header comment, lines 340-351). -/
structure GenQueueItem where
  workItemId : Option String := none
  id : Option String := none
  title : Option String := none
  description : Option String := none
  url : Option String := none
deriving Repr, DecidableEq

/-- The response of the GenerateTests entry point: the success object of
lines 396-405 or the error object of lines 418-423. -/
inductive GenerateResult where
  | done (testId workItemId : String) (scenarios : List Scenario)
      (scriptBlobName scriptBlobUrl : String) : GenerateResult
  | err (message : String) (testId : String) : GenerateResult
deriving Repr, DecidableEq

/-- `module.exports` of GenerateTests (lines 330-425): combined generation
first; only when it throws is the separate generation tried; a failure of
the fallback (or of the upload) reaches the catch, which returns the error
object.  `freshWorkItemId`/`freshTestId` model the `uuidv4()` calls. -/
def generateTestsHandler (o : AiOracle) (queueItem : Option GenQueueItem)
    (freshWorkItemId freshTestId : String) :
    GenerateResult × List GenCallEvent :=
  match queueItem with
  | none => (.err "Queue item is required" freshTestId, [])
  | some qi =>
    let workItemId := ((qi.workItemId).orElse (fun _ => qi.id)).getD freshWorkItemId
    let finish (pair : String × List Scenario) : GenerateResult :=
      let blobName := freshTestId ++ "/test.spec.js"
      match o.upload (stripCodeBlock pair.1) with
      | .error e => .err e freshTestId
      | .ok url => .done freshTestId workItemId pair.2 blobName url
    match o.combined with
    | .ok pair => (finish pair, [.combinedCall])
    | .error _ =>
      match generateTestsSeparately o with
      | (.error e, evs) => (.err e freshTestId, .combinedCall :: evs)
      | (.ok pair, evs) => (finish pair, .combinedCall :: evs)

/-- Concrete run on which both the combined call and the script-only call
throw (e.g. the model API is down for both). -/
def c5oracle : AiOracle :=
  { combined := .error "Failed to generate tests with AI: fetch failed"
    scriptOnly := .error "fetch failed"
    scenariosOnly := .ok []
    upload := fun _ => .ok "https://blob/t5/test.spec.js" }

/-- The queue message of that run. -/
def c5qi : GenQueueItem := { workItemId := some "wi-5", title := some "T" }

/-- C5 (counterexample): when the combined attempt fails and the
script-only call then also throws, the scenarios-only call is never
attempted — refuting the claim that the two separate calls are attempted
whenever (iff) the combined attempt fails. -/
theorem c5_counterexample :
    (∃ e, c5oracle.combined = .error e) ∧
    GenCallEvent.scriptCall
      ∈ (generateTestsHandler c5oracle (some c5qi) "wi-5" "t5").2 ∧
    GenCallEvent.scenariosCall
      ∉ (generateTestsHandler c5oracle (some c5qi) "wi-5" "t5").2 :=
  ⟨⟨"Failed to generate tests with AI: fetch failed", rfl⟩, by decide, by decide⟩

/-- C5 (amended): for every work item processed, the combined single-call
strategy is attempted first; the script-only call is attempted iff the
combined attempt throws; the scenarios-only call follows iff, in addition,
the script-only call succeeded; and when the combined attempt throws and
the separate path also throws (either of its two calls), the stage gives
up with an error result. -/
theorem c5_fallback_strategy_amended (o : AiOracle) (qi : GenQueueItem)
    (fwi fti : String) :
    ((generateTestsHandler o (some qi) fwi fti).2.head? =
      some GenCallEvent.combinedCall) ∧
    (GenCallEvent.scriptCall ∈ (generateTestsHandler o (some qi) fwi fti).2 ↔
      ∃ e, o.combined = .error e) ∧
    (GenCallEvent.scenariosCall ∈ (generateTestsHandler o (some qi) fwi fti).2 ↔
      (∃ e, o.combined = .error e) ∧ ∃ s, o.scriptOnly = .ok s) ∧
    (∀ e, o.combined = .error e →
      (∀ e2, o.scriptOnly = .error e2 →
        (generateTestsHandler o (some qi) fwi fti).1 = .err e2 fti) ∧
      (∀ s e2, o.scriptOnly = .ok s → o.scenariosOnly = .error e2 →
        (generateTestsHandler o (some qi) fwi fti).1 = .err e2 fti)) := by
  rcases h1 : o.combined with e1 | pair
  · rcases h2 : o.scriptOnly with e2 | s2
    · refine ⟨?_, ?_, ?_, ?_⟩ <;>
        simp [generateTestsHandler, generateTestsSeparately, h1, h2]
    · rcases h3 : o.scenariosOnly with e3 | s3
      · refine ⟨?_, ?_, ?_, ?_⟩ <;>
          simp [generateTestsHandler, generateTestsSeparately, h1, h2, h3]
      · refine ⟨?_, ?_, ?_, ?_⟩ <;>
          simp [generateTestsHandler, generateTestsSeparately, h1, h2, h3]
  · refine ⟨?_, ?_, ?_, ?_⟩ <;>
      simp [generateTestsHandler, generateTestsSeparately, h1]

/-! ## Status Aggregator: the jobStatus endpoint (src/unnamed/part_002)

Storage is an oracle: `summaryRead` is the outcome of
`downloadBlobAsJson(container, testId + "/summary.json")` (its `.error`
carries the thrown message, which contains `"does not exist"` exactly when
the blob is absent — see storage.js lines 114-117 and 135-137);
`listBlobs` maps a prefix to the listing outcome; `blobUrl` is the URL the
block-blob client reports for a blob name. -/

/-- A blob as `storageHelper.listBlobs` returns it (name + properties). -/
structure ListedBlob where
  name : String
  contentLength : Nat
  lastModified : String
deriving Repr, DecidableEq

/-- Storage oracles of one jobStatus invocation. -/
structure StatusOracle where
  /-- `downloadBlobAsJson` of `{testId}/summary.json`, parsed. -/
  summaryRead : Except String SummaryDoc
  /-- `storageHelper.listBlobs(container, {prefix})`, keyed by prefix. -/
  listBlobs : String → Except String (List ListedBlob)
  /-- `containerClient.getBlockBlobClient(name).url`. -/
  blobUrl : String → String

/-- `getTestSummary(testId, containerName)` (part_002 lines 48-59):
`null` when the download error message includes `'does not exist'`,
re-throw otherwise. -/
def getTestSummary (o : StatusOracle) : Except String (Option SummaryDoc) :=
  match o.summaryRead with
  | .ok doc => .ok (some doc)
  | .error msg =>
    if strContains msg "does not exist" then .ok none else .error msg

/-- `listBlobsByPrefix(containerName, prefix)` (lines 67-89): on success,
each blob keeps its URL, size and timestamp, with the prefix stripped from
its name (`blob.name.replace(prefix, '')`); the catch at lines 85-88
swallows EVERY listing error into an empty array. -/
def listBlobsByPrefix (o : StatusOracle) (pfx : String) : List EvidenceItem :=
  match o.listBlobs pfx with
  | .error _ => []
  | .ok blobs =>
    blobs.map fun b =>
      { name := jsStripFirst b.name pfx, url := o.blobUrl b.name,
        size := some b.contentLength, lastModified := some b.lastModified }

/-- The `evidence` accumulator of `getTestEvidence` (lines 97-141). -/
structure Evidence where
  screenshots : List EvidenceItem := []
  logs : List EvidenceItem := []
  reports : List EvidenceItem := []
deriving Repr, DecidableEq

/-- `getTestEvidence(testId, containerName)` (lines 97-141): list the
three prefixes independently; reports get a `type` from their extension. -/
def getTestEvidence (o : StatusOracle) (testId : String) : Evidence :=
  { screenshots := listBlobsByPrefix o (testId ++ "/screenshots/")
    logs := listBlobsByPrefix o (testId ++ "/logs/")
    reports :=
      (listBlobsByPrefix o (testId ++ "/reports/")).map fun b =>
        { b with typ := some (if strEndsWith (lowerStr b.name) ".json"
                              then "json" else "html") } }

/-- The StatusView body (response format in the part_002 header). -/
structure StatusResponse where
  testId : String
  workItemId : Option String
  status : String
  summary : Option TestSummary
  screenshots : List EvidenceItem
  logs : List EvidenceItem
  reports : List EvidenceItem
  summaryBlobUrl : Option String
deriving Repr, DecidableEq

/-- `buildResponse(summary, evidence, testId)` (lines 150-184).  Every
`summary.f || fallback` is `Option.getD`: a present field — even an empty
array — wins; an absent/null field falls back. -/
def buildResponse (summary : Option SummaryDoc) (evidence : Evidence)
    (testId : String) : StatusResponse :=
  match summary with
  | some s =>
    { testId := s.testId.getD testId
      workItemId := s.workItemId
      status := s.status.getD "unknown"
      summary := s.summary
      screenshots := s.screenshots.getD evidence.screenshots
      logs := s.logs.getD evidence.logs
      reports := s.reports.getD evidence.reports
      summaryBlobUrl := s.summaryBlobUrl }
  | none =>
    { testId := testId
      workItemId := none
      status := "not_found"
      summary := none
      screenshots := evidence.screenshots
      logs := evidence.logs
      reports := evidence.reports
      summaryBlobUrl := none }

/-- The body of `context.res`: a StatusView or an error object. -/
inductive JobStatusBody where
  | view (r : StatusResponse) : JobStatusBody
  | failure (message : String) : JobStatusBody
deriving Repr, DecidableEq

/-- `context.res` of the jobStatus function. -/
structure HttpRes where
  status : Nat
  body : JobStatusBody
deriving Repr, DecidableEq

/-- `module.exports` of jobStatus (lines 191-260): 400 without a testId;
read the summary (a non-not-found storage error reaches the catch → 500);
list evidence; build the response; 404 when its status is `not_found`,
500 when `error`, 200 otherwise. -/
def jobStatusHandler (o : StatusOracle) (testIdParam : Option String) :
    HttpRes :=
  match testIdParam with
  | none => { status := 400, body := .failure "testId query parameter is required" }
  | some testId =>
    match getTestSummary o with
    | .error _msg =>
      { status := 500,
        body := .failure "Internal server error while retrieving test status" }
    | .ok summary =>
      let evidence := getTestEvidence o testId
      let resp := buildResponse summary evidence testId
      let http : Nat :=
        if resp.status = "not_found" then 404
        else if resp.status = "error" then 500
        else 200
      { status := http, body := .view resp }

/-- `getTestResults(testId)` of the orchestrator
(src/backend/api/orchestrateQA/index.js 132-169): reads the RunSummary and
collects the embedded evidence URLs; the catch at line 161 converts EVERY
failure — not only blob-not-found — into a `not_found` result with no
evidence. -/
structure OrchTestResults where
  status : String
  summary : Option TestSummary
  evidenceUrls : List String
deriving Repr, DecidableEq

/-- See `OrchTestResults`; `summaryRead` is the `downloadBlobAsJson`
outcome for `{testId}/summary.json`. -/
def getTestResults (summaryRead : Except String SummaryDoc) :
    OrchTestResults :=
  match summaryRead with
  | .error _ => { status := "not_found", summary := none, evidenceUrls := [] }
  | .ok s =>
    { status := s.status.getD "unknown"
      summary := s.summary
      evidenceUrls :=
        ((s.screenshots.getD []).map fun x => x.url) ++
        ((s.logs.getD []).map fun x => x.url) ++
        ((s.reports.getD []).map fun x => x.url) ++
        (match s.summaryBlobUrl with | some u => [u] | none => []) }

/-- C6: when the RunSummary blob is absent (the summary download throws a
does-not-exist error), GetStatus responds 404 with status `'not_found'`
and the body carries exactly the independently-discovered evidence under
the RunID's screenshot/log/report prefixes — empty arrays when nothing is
stored, the partial evidence otherwise, never discarded. -/
theorem c6_not_found_with_evidence (o : StatusOracle) (tid msg : String)
    (habs : o.summaryRead = .error msg)
    (hmsg : strContains msg "does not exist" = true) :
    jobStatusHandler o (some tid) =
      { status := 404,
        body := .view
          { testId := tid, workItemId := none, status := "not_found",
            summary := none,
            screenshots := (getTestEvidence o tid).screenshots,
            logs := (getTestEvidence o tid).logs,
            reports := (getTestEvidence o tid).reports,
            summaryBlobUrl := none } } := by
  simp [jobStatusHandler, getTestSummary, habs, hmsg, buildResponse]

/-- Concrete store for the C6 witness: no RunSummary, one orphaned
screenshot under the RunID's prefix, nothing else. -/
def c6oracle : StatusOracle :=
  { summaryRead := .error "Failed to download blob \"t6/summary.json\" from container \"test-results\": Blob \"t6/summary.json\" does not exist in container \"test-results\""
    listBlobs := fun pfx =>
      if pfx = "t6/screenshots/" then
        .ok [{ name := "t6/screenshots/shot.png", contentLength := 17,
               lastModified := "2026-01-01T00:00:00Z" }]
      else .ok []
    blobUrl := fun name => "https://blob/" ++ name }

/-- C6 witness: 404 + `not_found` with the partial evidence listed. -/
theorem c6_witness :
    jobStatusHandler c6oracle (some "t6") =
      { status := 404,
        body := .view
          { testId := "t6", workItemId := none, status := "not_found",
            summary := none,
            screenshots := [{ name := "shot.png",
                              url := "https://blob/t6/screenshots/shot.png",
                              size := some 17,
                              lastModified := some "2026-01-01T00:00:00Z" }],
            logs := [], reports := [], summaryBlobUrl := none } } :=
  (c6_not_found_with_evidence c6oracle "t6" _ rfl (by decide)).trans (by decide)

/-- C7: when the RunSummary document is present and carries its own
embedded evidence arrays, the StatusView's screenshots, logs and reports
are exactly the document's own references — whatever the independent
prefix listing would have returned — and its status and summary fields
come from the document. -/
theorem c7_summary_precedence (o : StatusOracle) (tid st : String)
    (doc : SummaryDoc) (sm : Option TestSummary)
    (ss ls rs : List EvidenceItem)
    (hdoc : o.summaryRead = .ok doc)
    (hst : doc.status = some st)
    (hsm : doc.summary = sm)
    (hss : doc.screenshots = some ss)
    (hls : doc.logs = some ls)
    (hrs : doc.reports = some rs) :
    ∃ n r, jobStatusHandler o (some tid) = { status := n, body := .view r } ∧
      r.status = st ∧ r.summary = sm ∧
      r.screenshots = ss ∧ r.logs = ls ∧ r.reports = rs := by
  refine ⟨(if (buildResponse (some doc) (getTestEvidence o tid) tid).status =
            "not_found" then 404
          else if (buildResponse (some doc) (getTestEvidence o tid) tid).status =
            "error" then 500
          else 200),
    buildResponse (some doc) (getTestEvidence o tid) tid, ?_, ?_, ?_, ?_, ?_, ?_⟩
  · simp only [jobStatusHandler, getTestSummary, hdoc]
  all_goals
    simp [buildResponse, hst, hsm, hss, hls, hrs]

/-- The curated RunSummary of the C7 witness: every evidence field is
present (`logs` as an empty array). -/
def c7docStored : SummaryDoc :=
  { testId := some "t7", status := some "passed",
    summary := some ⟨1, 1, 0, 0, 2⟩,
    screenshots := some [{ name := "embedded.png",
                           url := "https://blob/t7/screenshots/embedded.png" }],
    logs := some [],
    reports := some [{ name := "curated.json",
                       url := "https://blob/t7/reports/curated.json",
                       typ := some "json" }] }

/-- A store whose independent listing is non-empty for every prefix, so
precedence is observable. -/
def c7oracle : StatusOracle :=
  { summaryRead := .ok c7docStored
    listBlobs := fun pfx =>
      .ok [{ name := pfx ++ "stale.bin", contentLength := 1,
             lastModified := "2026-01-01T00:00:00Z" }]
    blobUrl := fun name => "https://blob/" ++ name }

/-- C7 witness: the embedded references win over the (non-empty)
independent listing, and status/summary come from the document. -/
theorem c7_witness :
    ∃ n r, jobStatusHandler c7oracle (some "t7") =
        { status := n, body := .view r } ∧
      r.status = "passed" ∧ r.summary = some ⟨1, 1, 0, 0, 2⟩ ∧
      r.screenshots = [{ name := "embedded.png",
                         url := "https://blob/t7/screenshots/embedded.png" }] ∧
      r.logs = [] ∧
      r.reports = [{ name := "curated.json",
                     url := "https://blob/t7/reports/curated.json",
                     typ := some "json" }] :=
  c7_summary_precedence c7oracle "t7" "passed" c7docStored (some ⟨1, 1, 0, 0, 2⟩)
    [{ name := "embedded.png",
       url := "https://blob/t7/screenshots/embedded.png" }] []
    [{ name := "curated.json",
       url := "https://blob/t7/reports/curated.json", typ := some "json" }]
    rfl rfl rfl rfl rfl rfl

/-- C10: with a RunSummary present, evidence precedence is decided per
collection by field presence — for each of screenshots, logs, reports
independently, an absent (`none`) field in the document makes the
StatusView fall back to the independently-listed evidence for that
collection, while a present field (even an empty array) is used as-is and
suppresses the independent listing. -/
theorem c10_per_field_precedence (o : StatusOracle) (tid : String)
    (doc : SummaryDoc) (hdoc : o.summaryRead = .ok doc) :
    ∃ n r, jobStatusHandler o (some tid) = { status := n, body := .view r } ∧
      (r.screenshots = match doc.screenshots with
        | none => (getTestEvidence o tid).screenshots
        | some l => l) ∧
      (r.logs = match doc.logs with
        | none => (getTestEvidence o tid).logs
        | some l => l) ∧
      (r.reports = match doc.reports with
        | none => (getTestEvidence o tid).reports
        | some l => l) := by
  refine ⟨(if (buildResponse (some doc) (getTestEvidence o tid) tid).status =
            "not_found" then 404
          else if (buildResponse (some doc) (getTestEvidence o tid) tid).status =
            "error" then 500
          else 200),
    buildResponse (some doc) (getTestEvidence o tid) tid, ?_, ?_, ?_, ?_⟩
  · simp only [jobStatusHandler, getTestSummary, hdoc]
  · rcases h : doc.screenshots with _ | l <;> simp [buildResponse, h]
  · rcases h : doc.logs with _ | l <;> simp [buildResponse, h]
  · rcases h : doc.reports with _ | l <;> simp [buildResponse, h]

/-- A RunSummary with `screenshots := some []` (a present empty array),
`logs := none` (absent) and `reports := some [..]`. -/
def c10doc : SummaryDoc :=
  { testId := some "t10", status := some "passed",
    summary := some ⟨1, 1, 0, 0, 2⟩,
    screenshots := some [],
    logs := none,
    reports := some [{ name := "curated.json",
                       url := "https://blob/t10/reports/curated.json",
                       typ := some "json" }] }

/-- A store with a non-empty listing for every prefix, so the three
collections visibly resolve independently. -/
def c10oracle : StatusOracle :=
  { summaryRead := .ok c10doc
    listBlobs := fun pfx =>
      .ok [{ name := pfx ++ "stale.bin", contentLength := 1,
             lastModified := "2026-01-01T00:00:00Z" }]
    blobUrl := fun name => "https://blob/" ++ name }

/-- C10 witness: the per-field precedence at the concrete store. -/
theorem c10_witness :
    ∃ n r, jobStatusHandler c10oracle (some "t10") =
        { status := n, body := .view r } ∧
      (r.screenshots = match c10doc.screenshots with
        | none => (getTestEvidence c10oracle "t10").screenshots
        | some l => l) ∧
      (r.logs = match c10doc.logs with
        | none => (getTestEvidence c10oracle "t10").logs
        | some l => l) ∧
      (r.reports = match c10doc.reports with
        | none => (getTestEvidence c10oracle "t10").reports
        | some l => l) :=
  c10_per_field_precedence c10oracle "t10" c10doc rfl

/-- The failing input for C9: no RunSummary, and listing the screenshots
prefix fails with a network error (storage unreachable) — a storage-layer
read failure that is not blob-not-found. -/
def c9oracle : StatusOracle :=
  { summaryRead := .error "Failed to download blob \"run-9/summary.json\" from container \"test-results\": Blob \"run-9/summary.json\" does not exist in container \"test-results\""
    listBlobs := fun pfx =>
      if pfx = "run-9/screenshots/" then
        .error "Failed to list blobs in container \"test-results\": getaddrinfo ENOTFOUND account.blob.core.windows.net"
      else .ok []
    blobUrl := fun name => "https://blob/" ++ name }

/-- C9: the Status stage does NOT propagate every storage read failure.
The catch in `listBlobsByPrefix` (part_002 lines 85-88) swallows the
network error into an empty array, so GetStatus answers 404/`not_found`
with empty evidence instead of surfacing an error response; the
orchestrator's `getTestResults` likewise converts a non-not-found summary
read failure into a successful `not_found` result with no evidence. -/
theorem c9_list_error_swallowed :
    (∃ e, c9oracle.listBlobs "run-9/screenshots/" = .error e) ∧
    jobStatusHandler c9oracle (some "run-9") =
      { status := 404,
        body := .view
          { testId := "run-9", workItemId := none, status := "not_found",
            summary := none, screenshots := [], logs := [], reports := [],
            summaryBlobUrl := none } } ∧
    getTestResults (.error "Failed to download blob \"run-9/summary.json\" from container \"test-results\": getaddrinfo ENOTFOUND account.blob.core.windows.net") =
      { status := "not_found", summary := none, evidenceUrls := [] } :=
  ⟨⟨_, rfl⟩, by decide, rfl⟩

end QA
